import Mathlib

/-!
Verification development for the rate-limited request-execution core of the
strava-go client library.  The Go source is shallowly embedded: the
`RateLimit` struct becomes a Lean structure, its methods become pure
functions from state to state, wall-clock instants become an explicit
`Now` record, and the retry loop of `runRequestWithErrorHandler` becomes a
fuel-indexed recursive function over a scripted transport.  Go `int` is
modelled as `Int`; the `time.Time` zero value test `IsZero` is modelled by
an `Option Nat` field (`none` = zero value).  A Go runtime panic (index
out of range) is modelled by an `Option` result of `none`.
-/

namespace StravaGo

/-- A wall-clock instant as the tracker reads it: `Hour`, `Minute`, `Second`
as returned by Go's `time.Time` accessors, and `Day`, the string produced by
`Format("2006-01-02")`.  Validity of a real clock reading (`Hour < 24`,
`Minute < 60`, `Second < 60`) is carried as hypotheses where needed. -/
structure Now where
  Hour : Nat
  Minute : Nat
  Second : Nat
  Day : String
deriving Repr, DecidableEq

/-- The `windowShortMinutes` constant from the source. -/
def windowShortMinutes : Nat := 15

/-- The short-window key: `fmt.Sprintf("%v-%v", hour, minute - minute%windowShortMinutes)`. -/
def currentWindowShort (now : Now) : String :=
  toString now.Hour ++ "-" ++ toString (now.Minute - now.Minute % windowShortMinutes)

/-- The long-window key: `nowUtc.Format("2006-01-02")`, i.e. the calendar-day label. -/
def currentWindowLong (now : Now) : String :=
  now.Day

/-- The `RateLimit` struct.  `RequestTime : Option Nat` models the
`time.Time` field: `none` is the zero value (`IsZero()` true), `some t`
a time stamped at abstract instant `t`.  All counters are `Int`, as Go
`int`; in particular `UsageClaimed` is signed and can go negative. -/
structure RateLimit where
  RequestTime : Option Nat
  WindowShort : String
  WindowLong : String
  LimitShort : Int
  LimitLong : Int
  UsageShort : Int
  UsageLong : Int
  UsageClaimed : Int
deriving Repr, DecidableEq

/-- The all-zero `RateLimit{}` value a fresh client starts from. -/
def initRateLimit : RateLimit :=
  { RequestTime := none, WindowShort := "", WindowLong := "", LimitShort := 0,
    LimitLong := 0, UsageShort := 0, UsageLong := 0, UsageClaimed := 0 }

/-- Lines 45-48 of `ExceededAndClaim`: if the current short-window key differs
from the stored one, store it and reset the short usage. -/
def rolloverShort (rl : RateLimit) (now : Now) : RateLimit :=
  if currentWindowShort now ≠ rl.WindowShort then
    { rl with WindowShort := currentWindowShort now, UsageShort := 0 }
  else rl

/-- Lines 50-53: the same reset for the long window. -/
def rolloverLong (rl : RateLimit) (now : Now) : RateLimit :=
  if currentWindowLong now ≠ rl.WindowLong then
    { rl with WindowLong := currentWindowLong now, UsageLong := 0 }
  else rl

/-- The two window-rollover statements executed in source order. -/
def rollover (rl : RateLimit) (now : Now) : RateLimit :=
  rolloverLong (rolloverShort rl now) now

/-- The local `windowShortSeconds := windowShortMinutes * 60` of `ExceededAndClaim`. -/
def windowShortSeconds : Nat := windowShortMinutes * 60

/-- The wait returned on short-window exhaustion:
`5 + windowShortSeconds - (minute*60+second) % windowShortSeconds`. -/
def waitShortGo (now : Now) : Int :=
  5 + (windowShortSeconds : Int)
    - (((now.Minute * 60 + now.Second) % windowShortSeconds : Nat) : Int)

/-- The wait returned on long-window exhaustion:
`5 + 24*60*60 - (hour*60*60 + minute*60 + second)`. -/
def waitLongGo (now : Now) : Int :=
  5 + 24 * 60 * 60 - ((now.Hour * 60 * 60 + now.Minute * 60 + now.Second : Nat) : Int)

/-- Lines 55-67 of `ExceededAndClaim`, i.e. everything after the rollover:
the exhaustion checks with their early returns, then `UsageClaimed++` and
`return 0`.  Returns the updated struct and the returned wait in seconds. -/
def claimCheck (rl : RateLimit) (now : Now) : RateLimit × Int :=
  match rl.RequestTime with
  | some _ =>
    if rl.UsageShort + rl.UsageClaimed ≥ rl.LimitShort then
      (rl, waitShortGo now)
    else if rl.UsageLong + rl.UsageClaimed ≥ rl.LimitLong then
      (rl, waitLongGo now)
    else
      ({ rl with UsageClaimed := rl.UsageClaimed + 1 }, 0)
  | none =>
    ({ rl with UsageClaimed := rl.UsageClaimed + 1 }, 0)

/-- The `ExceededAndClaim` method (part_000 revision, the one `service.go` calls):
rollover both windows, then check and claim. -/
def ExceededAndClaim (rl : RateLimit) (now : Now) : RateLimit × Int :=
  claimCheck (rollover rl now) now

/-- The `Unclaim` method: `rl.UsageClaimed--`, with no floor. -/
def Unclaim (rl : RateLimit) : RateLimit :=
  { rl with UsageClaimed := rl.UsageClaimed - 1 }

/-- The `Exceeded` method from the alternate revision (`ratelimit.go`): same rollover
and checks, but it returns a boolean and increments the reserved counter
only when not exceeded.  The `UsageReserved` field of that revision is
identified with `UsageClaimed` here. -/
def Exceeded (rl : RateLimit) (now : Now) : RateLimit × Bool :=
  let rl1 := rollover rl now
  let exceeded : Bool :=
    match rl1.RequestTime with
    | some _ =>
      decide (rl1.UsageShort + rl1.UsageClaimed ≥ rl1.LimitShort) ||
        decide (rl1.UsageLong + rl1.UsageClaimed ≥ rl1.LimitLong)
    | none => false
  if exceeded then (rl1, true)
  else ({ rl1 with UsageClaimed := rl1.UsageClaimed + 1 }, false)

/-- The `Reserved` method from the alternate revision: `rl.UsageReserved--`, no floor. -/
def Reserved (rl : RateLimit) : RateLimit :=
  { rl with UsageClaimed := rl.UsageClaimed - 1 }

/-- Go's `strconv.Atoi`: optional single `+`/`-` sign, then one or more ASCII
digits, nothing else; values outside the 64-bit signed range are a range
error.  `none` models `err != nil`. -/
def atoi? (s : String) : Option Int :=
  let chars := s.data
  let signAndDigits : Int × List Char :=
    match chars with
    | c :: rest =>
      if c = Char.ofNat 43 then (1, rest)
      else if c = Char.ofNat 45 then (-1, rest)
      else (1, chars)
    | [] => (1, [])
  let sign := signAndDigits.1
  let ds := signAndDigits.2
  if ds.isEmpty then none
  else if ds.all Char.isDigit then
    let v : Int := sign * (ds.foldl (fun acc c => acc * 10 + (c.toNat - 48)) 0 : Nat)
    if -(2 ^ 63) ≤ v ∧ v ≤ 2 ^ 63 - 1 then some v else none
  else none

/-- Split a character list at every comma, keeping empty pieces:
the recursion behind `strings.Split(s, ",")`. -/
def splitOnCommaChars : List Char → List (List Char)
  | [] => [[]]
  | c :: rest =>
    if c = Char.ofNat 44 then [] :: splitOnCommaChars rest
    else
      match splitOnCommaChars rest with
      | [] => [[c]]
      | h :: t => (c :: h) :: t

/-- Go's `strings.Split(s, ",")`: the pieces of `s` between commas, in
order; the result is never empty (an input without commas yields the
one-element list holding the input itself). -/
def splitOnComma (s : String) : List String :=
  (splitOnCommaChars s.data).map String.mk

/-- An HTTP response as the tracker and executor read it: the status code,
the values of the two rate-limit headers (`Header.Get` returns `""` for an
absent header), and the body bytes. -/
structure Response where
  StatusCode : Nat
  LimitHeader : String
  UsageHeader : String
  Body : String
deriving Repr, DecidableEq

/-- The `clear` method: reset every field to its zero value - except `UsageClaimed`,
which the source does not touch. -/
def clear (rl : RateLimit) : RateLimit :=
  { rl with
      RequestTime := none, WindowShort := "", WindowLong := "",
      LimitShort := 0, LimitLong := 0, UsageShort := 0, UsageLong := 0 }

/-- The `updateRateLimits` method: parse the two comma-separated header pairs; on any
`Atoi` failure or absent header, `clear` the state; on success overwrite
limits and usages and stamp `RequestTime`.  The source indexes `s[1]`
without a length check, so a header value with no comma panics with an
index-out-of-range runtime error: that is the `none` result.  `t` is the
abstract instant `time.Now()` would return. -/
def updateRateLimits (rl : RateLimit) (resp : Response) (t : Nat) : Option RateLimit :=
  if resp.LimitHeader = "" ∨ resp.UsageHeader = "" then
    some (clear rl)
  else
    match atoi? ((splitOnComma resp.LimitHeader).headD "") with
    | none => some (clear rl)
    | some limS =>
      match (splitOnComma resp.LimitHeader).get? 1 with
      | none => none
      | some sl1 =>
        match atoi? sl1 with
        | none => some (clear { rl with LimitShort := limS })
        | some limL =>
          match atoi? ((splitOnComma resp.UsageHeader).headD "") with
          | none => some (clear { rl with LimitShort := limS, LimitLong := limL })
          | some useS =>
            match (splitOnComma resp.UsageHeader).get? 1 with
            | none => none
            | some su1 =>
              match atoi? su1 with
              | none =>
                some (clear { rl with LimitShort := limS, LimitLong := limL, UsageShort := useS })
              | some useL =>
                some { rl with
                         LimitShort := limS, LimitLong := limL, UsageShort := useS,
                         UsageLong := useL, RequestTime := some t }

/-- Go `float32` values as `FractionReached` can produce them: a finite
value (finite quotients are modelled exactly, by a rational; the IEEE
rounding of a finite division is abstracted away, which is irrelevant to
the finite/infinite/NaN distinctions proved below), positive infinity,
negative infinity, or NaN. -/
inductive GoFloat where
  | finite : ℚ → GoFloat
  | posInf : GoFloat
  | negInf : GoFloat
  | nan : GoFloat
deriving DecidableEq, Repr

/-- Division `float32(a) / float32(b)` for integer `a`, `b`: IEEE division by zero
yields `+Inf`, `-Inf` or `NaN` according to the sign of the dividend. -/
def intDivF (a b : Int) : GoFloat :=
  if b = 0 then
    if a > 0 then GoFloat.posInf
    else if a < 0 then GoFloat.negInf
    else GoFloat.nan
  else GoFloat.finite ((a : ℚ) / (b : ℚ))

/-- The IEEE `>` comparison on `GoFloat`: any comparison involving NaN is
false. -/
def fgt : GoFloat → GoFloat → Bool
  | GoFloat.nan, _ => false
  | _, GoFloat.nan => false
  | GoFloat.finite a, GoFloat.finite b => decide (a > b)
  | GoFloat.finite _, GoFloat.posInf => false
  | GoFloat.finite _, GoFloat.negInf => true
  | GoFloat.posInf, GoFloat.posInf => false
  | GoFloat.posInf, _ => true
  | GoFloat.negInf, _ => false

/-- The `FractionReached` method: the two usage/limit quotients in `float32`, then
return the short one if it compares strictly greater, else the long one. -/
def FractionReached (rl : RateLimit) : GoFloat :=
  let shortLimitFraction := intDivF rl.UsageShort rl.LimitShort
  let longLimitFraction := intDivF rl.UsageLong rl.LimitLong
  if fgt shortLimitFraction longLimitFraction then shortLimitFraction
  else longLimitFraction

/-- What the spec text says `FractionUsed` returns: the maximum of the two
usage/limit fractions, with a fraction whose limit is 0 defined as 0. -/
def fractionUsedSpec (rl : RateLimit) : ℚ :=
  let fracShort : ℚ := if rl.LimitShort = 0 then 0 else (rl.UsageShort : ℚ) / (rl.LimitShort : ℚ)
  let fracLong : ℚ := if rl.LimitLong = 0 then 0 else (rl.UsageLong : ℚ) / (rl.LimitLong : ℚ)
  max fracShort fracLong

/-- One tracker operation issued by a caller: a claim attempt at some
wall-clock instant, or a release. -/
inductive Op where
  | claim : Now → Op
  | release : Op
deriving Repr, DecidableEq

/-- The state after one operation. -/
def applyOp (rl : RateLimit) : Op → RateLimit
  | Op.claim now => (ExceededAndClaim rl now).1
  | Op.release => Unclaim rl

/-- Whether the operation was granted: for a claim, the returned wait is 0;
a release always counts as granted. -/
def opGranted (rl : RateLimit) : Op → Bool
  | Op.claim now => decide ((ExceededAndClaim rl now).2 = 0)
  | Op.release => true

/-- Run a sequence of operations, recording whether every claim in it was
granted with wait 0. -/
def runOps (rl : RateLimit) : List Op → RateLimit × Bool
  | [] => (rl, true)
  | op :: rest =>
    let ok := opGranted rl op
    let tail := runOps (applyOp rl op) rest
    (tail.1, ok && tail.2)

/-- The outcome `runRequestWithErrorHandler` hands its caller. -/
inductive RunError where
  | auth : RunError
  | transport : RunError
  | handler : Option String → RunError
deriving Repr, DecidableEq

/-- `([]byte, error)` as returned to the caller: the body bytes, or an error. -/
inductive RunResult where
  | ok : String → RunResult
  | fail : RunError → RunResult
deriving Repr, DecidableEq

/-- The function `checkResponseForErrorsWithErrorHandler`: statuses above the 2xx class
go through the error handler, everything else returns the body bytes. -/
def checkResponseForErrorsWithErrorHandler
    (resp : Response) (errorHandler : Response → Option String) : RunResult :=
  if resp.StatusCode / 100 > 2 then RunResult.fail (RunError.handler (errorHandler resp))
  else RunResult.ok resp.Body

/-- Run the `defer client.rateLimit.Unclaim()` calls stacked up by the
iterations of the retry loop: one `Unclaim` per registered defer. -/
def applyUnclaims : Nat → RateLimit → RateLimit
  | 0, rl => rl
  | n + 1, rl => applyUnclaims n (Unclaim rl)

/-- The body of `runRequestWithErrorHandler` as a fuel-indexed loop.

* `eh` is the `ErrorHandler` argument; `none` models a `nil` error.
* `tokenOk` abstracts `validateToken`: `false` makes it fail.
* `times k` is the wall clock read by the `k`-th iteration, `k` doubling
  as the abstract `time.Now()` stamp passed to `updateRateLimits`.
* `defers` counts the `defer Unclaim` registrations accumulated so far
  (each pass over the `defer` statement adds one; Go runs them all when
  the function returns, on every return path).
* `script` is the transport: each `httpClient.Do` consumes the head
  response; an empty script is a transport error (`resp = nil, err != nil`).
* The result is `none` when the fuel runs out before the function returns
  or when `updateRateLimits` panics, and otherwise `some` of the final
  tracker state and the value returned to the caller.

Control flow mirrors the source: claim (retrying while the wait is
positive), register the deferred `Unclaim`, validate the token, send; a
429 response is reconciled and loops back to the claim without returning;
any other response is reconciled and returned through
`checkResponseForErrorsWithErrorHandler`. -/
def runLoop (eh : Response → Option String) (tokenOk : Bool) (times : Nat → Now) :
    Nat → Nat → RateLimit → Nat → List Response → Option (RateLimit × RunResult)
  | 0, _, _, _, _ => none
  | fuel + 1, k, rl, defers, script =>
    let claimed := ExceededAndClaim rl (times k)
    if claimed.2 > 0 then
      runLoop eh tokenOk times fuel (k + 1) claimed.1 defers script
    else
      let defers1 := defers + 1
      if tokenOk then
        match script with
        | [] => some (applyUnclaims defers1 claimed.1, RunResult.fail RunError.transport)
        | resp :: rest =>
          if resp.StatusCode = 429 then
            match updateRateLimits claimed.1 resp k with
            | none => none
            | some rl2 => runLoop eh tokenOk times fuel (k + 1) rl2 defers1 rest
          else
            match updateRateLimits claimed.1 resp k with
            | none => none
            | some rl2 =>
              some (applyUnclaims defers1 rl2,
                checkResponseForErrorsWithErrorHandler resp eh)
      else
        some (applyUnclaims defers1 claimed.1, RunResult.fail RunError.auth)

/-- The entry point `runRequestWithErrorHandler`: enter the loop with no pending defers. -/
def runRequestWithErrorHandler (eh : Response → Option String) (tokenOk : Bool)
    (times : Nat → Now) (fuel : Nat) (rl : RateLimit) (script : List Response) :
    Option (RateLimit × RunResult) :=
  runLoop eh tokenOk times fuel 0 rl 0 script

/-!
Interleaving model for the locking discipline.  `ExceededAndClaim` and
`Unclaim` take only `lock.RLock()`, the shared read lock of the
`sync.RWMutex`; `updateRateLimits` takes the exclusive `lock.Lock()`.
Under an `RWMutex`, any number of read-lock holders may be inside their
critical sections at once, so two concurrent claimers interleave freely.
Each claimer goroutine is modelled as four atomic steps (a strictly
coarser grain than Go statements, so every interleaving exhibited here
exists in the real program): acquire the read lock; run the rollover
writes and the exhaustion check (lines 40-62), recording the decision;
run `UsageClaimed++` (line 64) if granted; release the read lock. -/

/-- Program counter of one claimer goroutine: 0 = before `RLock`,
1 = lock held, before the check, 2 = decision made, before the increment,
3 = after the increment, before `RUnlock`, 4 = done. -/
def claimStep (now : Now) (pc : Nat) (granted : Bool) (rl : RateLimit) (readers : Nat) :
    Nat × Bool × RateLimit × Nat :=
  match pc with
  | 0 => (1, granted, rl, readers + 1)
  | 1 =>
    let rl1 := rollover rl now
    let g : Bool :=
      match rl1.RequestTime with
      | some _ =>
        !(decide (rl1.UsageShort + rl1.UsageClaimed ≥ rl1.LimitShort) ||
          decide (rl1.UsageLong + rl1.UsageClaimed ≥ rl1.LimitLong))
      | none => true
    (2, g, rl1, readers)
  | 2 =>
    if granted then (3, granted, { rl with UsageClaimed := rl.UsageClaimed + 1 }, readers)
    else (3, granted, rl, readers)
  | 3 => (4, granted, rl, readers - 1)
  | _ => (pc, granted, rl, readers)

/-- Two claimer goroutines A and B sharing one `RateLimit` and its
`RWMutex` read-lock holder count. -/
structure Sys where
  rl : RateLimit
  readers : Nat
  pcA : Nat
  pcB : Nat
  grantedA : Bool
  grantedB : Bool
deriving Repr, DecidableEq

/-- Advance one goroutine (`true` = A, `false` = B) by one atomic step. -/
def sysStep (now : Now) (s : Sys) (who : Bool) : Sys :=
  if who then
    let r := claimStep now s.pcA s.grantedA s.rl s.readers
    { s with pcA := r.1, grantedA := r.2.1, rl := r.2.2.1, readers := r.2.2.2 }
  else
    let r := claimStep now s.pcB s.grantedB s.rl s.readers
    { s with pcB := r.1, grantedB := r.2.1, rl := r.2.2.1, readers := r.2.2.2 }

/-- Run a schedule, i.e. one concrete interleaving of the two goroutines. -/
def runSched (now : Now) (sched : List Bool) (s : Sys) : Sys :=
  sched.foldl (sysStep now) s

/-- Both goroutines at their start, neither holding the lock. -/
def initSys (rl : RateLimit) : Sys :=
  { rl := rl, readers := 0, pcA := 0, pcB := 0, grantedA := false, grantedB := false }

/-- The alternating schedule: both acquire, both check, both increment,
both release. -/
def alternatingSched : List Bool :=
  [true, false, true, false, true, false, true, false]

/-- A wall-clock reading is valid when its fields are in the ranges Go's
`time.Time` accessors guarantee. -/
def validNow (now : Now) : Prop :=
  now.Hour < 24 ∧ now.Minute < 60 ∧ now.Second < 60

/-- Seconds elapsed since the start of the UTC day. -/
def secondsOfDay (now : Now) : Nat :=
  now.Hour * 3600 + now.Minute * 60 + now.Second

/-- Per the spec text: the number of seconds remaining from now until the
next 15-minute short-window boundary, computed from the next boundary
instant. -/
def secondsUntilNextShortBoundary (now : Now) : Nat :=
  (secondsOfDay now / 900 + 1) * 900 - secondsOfDay now

/-- Per the spec text: the number of seconds remaining until the next UTC
midnight. -/
def secondsUntilNextUtcMidnight (now : Now) : Nat :=
  86400 - secondsOfDay now

/-! Concrete instants, states and responses used by witnesses and
counterexamples. -/

/-- The instant 10:00:00 UTC on 2024-01-01; its short-window key is `"10-0"`. -/
def now0 : Now := { Hour := 10, Minute := 0, Second := 0, Day := "2024-01-01" }

/-- A clock stuck at `now0`. -/
def times0 : Nat → Now := fun _ => now0

/-- An error handler returning `nil` for every response. -/
def eh0 : Response → Option String := fun _ => none

/-- A 429 response with well-formed quota headers. -/
def resp429 : Response :=
  { StatusCode := 429, LimitHeader := "600,30000", UsageHeader := "300,10000", Body := "X" }

/-- A 200 response with well-formed quota headers and body `"B"`. -/
def resp200 : Response :=
  { StatusCode := 200, LimitHeader := "600,30000", UsageHeader := "300,10000", Body := "B" }

/-- A response whose limit header has no comma separator. -/
def respNoComma : Response :=
  { StatusCode := 200, LimitHeader := "100", UsageHeader := "1,2", Body := "" }

/-- A response with non-numeric quota headers, as in the repository's own
rate-limit test. -/
def respNonNumeric : Response :=
  { StatusCode := 200, LimitHeader := "xxx", UsageHeader := "zzz", Body := "" }

/-- The tracker state after the `resp429` / `resp200` execution from
`initRateLimit` under `times0`. -/
def c1FinalState : RateLimit :=
  { RequestTime := some 1, WindowShort := "10-0", WindowLong := "2024-01-01",
    LimitShort := 600, LimitLong := 30000, UsageShort := 300, UsageLong := 10000,
    UsageClaimed := 0 }

/-- A state holding server data, with limits set but `RequestTime` zero has
no say: here `RequestTime` is `none` while limits are tiny and usages huge,
to exercise the fail-open path. -/
def rlNoData : RateLimit :=
  { RequestTime := none, WindowShort := "", WindowLong := "", LimitShort := 1,
    LimitLong := 1, UsageShort := 100, UsageLong := 100, UsageClaimed := 50 }

/-- Short window over limit, long window fine, keys matching `now0`. -/
def rlShortOver : RateLimit :=
  { RequestTime := some 0, WindowShort := "10-0", WindowLong := "2024-01-01",
    LimitShort := 100, LimitLong := 30000, UsageShort := 200, UsageLong := 0,
    UsageClaimed := 0 }

/-- Short window with room, long window over limit, keys matching `now0`. -/
def rlLongOver : RateLimit :=
  { RequestTime := some 0, WindowShort := "10-0", WindowLong := "2024-01-01",
    LimitShort := 1, LimitLong := 100, UsageShort := 0, UsageLong := 200,
    UsageClaimed := 0 }

/-- A state with server data and non-trivial counters. -/
def rlServer : RateLimit :=
  { RequestTime := some 3, WindowShort := "10-0", WindowLong := "2024-01-01",
    LimitShort := 600, LimitLong := 30000, UsageShort := 599, UsageLong := 100,
    UsageClaimed := 2 }

/-- `rlServer` after absorbing `resp200` at instant 7. -/
def rlServerUpd : RateLimit :=
  { RequestTime := some 7, WindowShort := "10-0", WindowLong := "2024-01-01",
    LimitShort := 600, LimitLong := 30000, UsageShort := 300, UsageLong := 10000,
    UsageClaimed := 2 }

/-- The spec's first `FractionUsed` example: limits (600, 30000), usages
(300, 10000). -/
def rlFracHalf : RateLimit :=
  { RequestTime := some 0, WindowShort := "", WindowLong := "", LimitShort := 600,
    LimitLong := 30000, UsageShort := 300, UsageLong := 10000, UsageClaimed := 0 }

/-- The spec's second example: usages (300, 27000). -/
def rlFracNine : RateLimit :=
  { RequestTime := some 0, WindowShort := "", WindowLong := "", LimitShort := 600,
    LimitLong := 30000, UsageShort := 300, UsageLong := 27000, UsageClaimed := 0 }

/-- Unknown (zero) short limit with positive short usage. -/
def rlFracZeroShort : RateLimit :=
  { RequestTime := some 0, WindowShort := "", WindowLong := "", LimitShort := 0,
    LimitLong := 30000, UsageShort := 300, UsageLong := 10000, UsageClaimed := 0 }

/-- A state whose stored window keys both differ from `now0`'s. -/
def rl8 : RateLimit :=
  { RequestTime := some 0, WindowShort := "9-45", WindowLong := "2023-12-31",
    LimitShort := 600, LimitLong := 30000, UsageShort := 42, UsageLong := 37,
    UsageClaimed := 1 }

/-- One free short-window slot (usage 9 of limit 10), keys matching `now0`:
the state for the over-admission interleaving. -/
def rl9 : RateLimit :=
  { RequestTime := some 0, WindowShort := "10-0", WindowLong := "2024-01-01",
    LimitShort := 10, LimitLong := 30000, UsageShort := 9, UsageLong := 0,
    UsageClaimed := 0 }

/-- The instant 13:17:42 UTC, generic inside a short window. -/
def now5 : Now := { Hour := 13, Minute := 17, Second := 42, Day := "2024-01-01" }

/-- A short claim/release/claim exercise sequence. -/
def ops2 : List Op := [Op.claim now0, Op.release, Op.claim now0]

/-! ### Helper lemmas -/

/-- Rollover touches neither limit, nor the claimed counter, nor the
server-data stamp. -/
theorem rollover_frame (rl : RateLimit) (now : Now) :
    (rollover rl now).LimitShort = rl.LimitShort ∧
    (rollover rl now).LimitLong = rl.LimitLong ∧
    (rollover rl now).UsageClaimed = rl.UsageClaimed ∧
    (rollover rl now).RequestTime = rl.RequestTime := by
  unfold rollover rolloverLong rolloverShort
  split_ifs <;> simp

/-- When both stored keys already match the current ones, rollover is the
identity. -/
theorem rollover_id (rl : RateLimit) (now : Now)
    (hs : rl.WindowShort = currentWindowShort now)
    (hl : rl.WindowLong = currentWindowLong now) :
    rollover rl now = rl := by
  unfold rollover rolloverLong rolloverShort
  split_ifs <;> simp_all

/-- The short-window wait is positive outright. -/
theorem waitShortGo_pos (now : Now) : waitShortGo now > 0 := by
  unfold waitShortGo windowShortSeconds windowShortMinutes
  have h : (now.Minute * 60 + now.Second) % (15 * 60) < 15 * 60 := Nat.mod_lt _ (by norm_num)
  omega

/-- The long-window wait is positive for every valid clock reading. -/
theorem waitLongGo_pos (now : Now) (h : validNow now) : waitLongGo now > 0 := by
  obtain ⟨h1, h2, h3⟩ := h
  unfold waitLongGo
  omega

/-- The `claimCheck` step either denies with a positive wait, leaving the state
untouched, or grants with wait 0, incrementing only the claimed counter. -/
theorem claimCheck_cases (rl : RateLimit) (now : Now) (hv : validNow now) :
    (claimCheck rl now).2 > 0 ∧ (claimCheck rl now).1 = rl ∨
      (claimCheck rl now).2 = 0 ∧
        (claimCheck rl now).1 = { rl with UsageClaimed := rl.UsageClaimed + 1 } := by
  cases h : rl.RequestTime with
  | none =>
    simp [claimCheck, h]
  | some t =>
    simp only [claimCheck, h]
    split_ifs with h1 h2
    · exact Or.inl ⟨waitShortGo_pos now, rfl⟩
    · exact Or.inl ⟨waitLongGo_pos now hv, rfl⟩
    · exact Or.inr ⟨rfl, rfl⟩

/-- The `claimCheck` step never writes the server-data stamp. -/
theorem claimCheck_RequestTime (rl : RateLimit) (now : Now) :
    (claimCheck rl now).1.RequestTime = rl.RequestTime := by
  cases h : rl.RequestTime with
  | none => simp [claimCheck, h]
  | some t =>
    simp only [claimCheck, h]
    split_ifs <;> simp [h]

/-- A call to `ExceededAndClaim` either denies with positive wait and an
unchanged claimed counter, or grants with wait 0 and the counter
incremented. -/
theorem ExceededAndClaim_cases (rl : RateLimit) (now : Now) (hv : validNow now) :
    (ExceededAndClaim rl now).2 > 0 ∧
        (ExceededAndClaim rl now).1.UsageClaimed = rl.UsageClaimed ∨
      (ExceededAndClaim rl now).2 = 0 ∧
        (ExceededAndClaim rl now).1.UsageClaimed = rl.UsageClaimed + 1 := by
  have hf := rollover_frame rl now
  rcases claimCheck_cases (rollover rl now) now hv with ⟨h1, h2⟩ | ⟨h1, h2⟩
  · left
    refine ⟨h1, ?_⟩
    show (claimCheck (rollover rl now) now).1.UsageClaimed = rl.UsageClaimed
    rw [h2]
    exact hf.2.2.1
  · right
    refine ⟨h1, ?_⟩
    show (claimCheck (rollover rl now) now).1.UsageClaimed = rl.UsageClaimed + 1
    rw [h2]
    show (rollover rl now).UsageClaimed + 1 = rl.UsageClaimed + 1
    rw [hf.2.2.1]

/-- Without server data every claim grants: wait 0, counter incremented,
and the state still carries no server data afterwards. -/
theorem ExceededAndClaim_noData (rl : RateLimit) (now : Now) (h : rl.RequestTime = none) :
    (ExceededAndClaim rl now).2 = 0 ∧
      (ExceededAndClaim rl now).1.UsageClaimed = rl.UsageClaimed + 1 ∧
      (ExceededAndClaim rl now).1.RequestTime = none := by
  have hf := rollover_frame rl now
  have hr : (rollover rl now).RequestTime = none := by rw [hf.2.2.2, h]
  simp [ExceededAndClaim, claimCheck, hr, hf.2.2.1]

/-- Neither path of `updateRateLimits` touches the claimed counter. -/
theorem updateRateLimits_claimed (rl : RateLimit) (resp : Response) (t : Nat)
    (rl2 : RateLimit) (h : updateRateLimits rl resp t = some rl2) :
    rl2.UsageClaimed = rl.UsageClaimed := by
  unfold updateRateLimits at h
  repeat' split at h
  all_goals first
    | (injection h with h; subst h; simp [clear])
    | exact absurd h (by simp)

/-- Running `n` stacked `Unclaim` defers subtracts `n` from the claimed
counter. -/
theorem applyUnclaims_claimed (n : Nat) (rl : RateLimit) :
    (applyUnclaims n rl).UsageClaimed = rl.UsageClaimed - n := by
  induction n generalizing rl with
  | zero => simp [applyUnclaims]
  | succ m ih =>
    rw [applyUnclaims, ih]
    simp only [Unclaim]
    omega

/-- Claims and releases never write the server-data stamp. -/
theorem applyOp_RequestTime (rl : RateLimit) (op : Op) :
    (applyOp rl op).RequestTime = rl.RequestTime := by
  cases op with
  | claim now =>
    show (claimCheck (rollover rl now) now).1.RequestTime = rl.RequestTime
    rw [claimCheck_RequestTime]
    exact (rollover_frame rl now).2.2.2
  | release => rfl

/-- Loop invariant of `runRequestWithErrorHandler`: whenever the function
returns, the claimed counter equals its value at entry to the current
iteration minus the `Unclaim` defers already owed.  Each granted claim
adds one to the counter and one deferred release, denials and
reconciliations touch neither, and every return path runs all defers. -/
theorem runLoop_claimed (eh : Response → Option String) (tokenOk : Bool)
    (times : Nat → Now) (hv : ∀ k, validNow (times k)) :
    ∀ (fuel k : Nat) (rl : RateLimit) (defers : Nat) (script : List Response)
      (rl2 : RateLimit) (res : RunResult),
      runLoop eh tokenOk times fuel k rl defers script = some (rl2, res) →
      rl2.UsageClaimed = rl.UsageClaimed - defers := by
  intro fuel
  induction fuel with
  | zero =>
    intro k rl defers script rl2 res h
    simp [runLoop] at h
  | succ n ih =>
    intro k rl defers script rl2 res h
    rw [runLoop] at h
    rcases ExceededAndClaim_cases rl (times k) (hv k) with ⟨hpos, hcl⟩ | ⟨hzero, hcl⟩
    · rw [if_pos hpos] at h
      rw [ih (k + 1) _ defers script rl2 res h, hcl]
    · rw [if_neg (by omega)] at h
      cases tokenOk with
      | false =>
        simp only [Bool.false_eq_true, if_false] at h
        injection h with h
        have h1 : rl2 = applyUnclaims (defers + 1) (ExceededAndClaim rl (times k)).1 := by
          exact congrArg Prod.fst h.symm
        rw [h1, applyUnclaims_claimed, hcl]
        omega
      | true =>
        simp only [if_true] at h
        cases script with
        | nil =>
          injection h with h
          have h1 : rl2 = applyUnclaims (defers + 1) (ExceededAndClaim rl (times k)).1 := by
            exact congrArg Prod.fst h.symm
          rw [h1, applyUnclaims_claimed, hcl]
          omega
        | cons resp rest =>
          dsimp only at h
          by_cases h429 : resp.StatusCode = 429
          · rw [if_pos h429] at h
            cases hupd : updateRateLimits (ExceededAndClaim rl (times k)).1 resp k with
            | none => rw [hupd] at h; exact absurd h (by simp)
            | some rlU =>
              rw [hupd] at h
              have := ih (k + 1) rlU (defers + 1) rest rl2 res h
              rw [this, updateRateLimits_claimed _ _ _ _ hupd, hcl]
              omega
          · rw [if_neg h429] at h
            cases hupd : updateRateLimits (ExceededAndClaim rl (times k)).1 resp k with
            | none => rw [hupd] at h; exact absurd h (by simp)
            | some rlU =>
              rw [hupd] at h
              injection h with h
              have h1 : rl2 = applyUnclaims (defers + 1) rlU := by
                exact congrArg Prod.fst h.symm
              rw [h1, applyUnclaims_claimed, updateRateLimits_claimed _ _ _ _ hupd, hcl]
              omega

/-- When the remaining script is a single non-429, non-error response, a
returning run hands the caller exactly that response's body. -/
theorem runLoop_ok_of_200 (eh : Response → Option String) (times : Nat → Now) :
    ∀ (fuel k : Nat) (rl : RateLimit) (defers : Nat) (r2 : Response)
      (rl2 : RateLimit) (res : RunResult),
      r2.StatusCode = 200 →
      runLoop eh true times fuel k rl defers [r2] = some (rl2, res) →
      res = RunResult.ok r2.Body := by
  intro fuel
  induction fuel with
  | zero =>
    intro k rl defers r2 rl2 res h200 h
    simp [runLoop] at h
  | succ n ih =>
    intro k rl defers r2 rl2 res h200 h
    rw [runLoop] at h
    split at h
    · exact ih (k + 1) _ defers r2 rl2 res h200 h
    · simp only [if_true] at h
      rw [if_neg (by rw [h200]; omega)] at h
      cases hupd : updateRateLimits (ExceededAndClaim rl (times k)).1 r2 k with
      | none => rw [hupd] at h; exact absurd h (by simp)
      | some rlU =>
        rw [hupd] at h
        injection h with h
        have h1 : res = checkResponseForErrorsWithErrorHandler r2 eh := by
          exact congrArg Prod.snd h.symm
        rw [h1]
        unfold checkResponseForErrorsWithErrorHandler
        rw [if_neg (by rw [h200]; omega)]

/-- When the script is a 429 followed by a 200, a returning run hands the
caller the 200 body: the 429 is absorbed by the loop. -/
theorem runLoop_429_200_ok (eh : Response → Option String) (times : Nat → Now) :
    ∀ (fuel k : Nat) (rl : RateLimit) (defers : Nat) (r1 r2 : Response)
      (rl2 : RateLimit) (res : RunResult),
      r1.StatusCode = 429 → r2.StatusCode = 200 →
      runLoop eh true times fuel k rl defers [r1, r2] = some (rl2, res) →
      res = RunResult.ok r2.Body := by
  intro fuel
  induction fuel with
  | zero =>
    intro k rl defers r1 r2 rl2 res h429 h200 h
    simp [runLoop] at h
  | succ n ih =>
    intro k rl defers r1 r2 rl2 res h429 h200 h
    rw [runLoop] at h
    split at h
    · exact ih (k + 1) _ defers r1 r2 rl2 res h429 h200 h
    · simp only [if_true] at h
      rw [if_pos h429] at h
      cases hupd : updateRateLimits (ExceededAndClaim rl (times k)).1 r1 k with
      | none => rw [hupd] at h; exact absurd h (by simp)
      | some rlU =>
        rw [hupd] at h
        exact runLoop_ok_of_200 eh times n (k + 1) rlU (defers + 1) r2 rl2 res h200 h

/-- Without server data, a whole sequence of claims and releases grants
every claim: no operation in the sequence ever sets the server-data
stamp, so the fail-open branch is taken each time. -/
theorem runOps_noData (rl : RateLimit) (ops : List Op) (h : rl.RequestTime = none) :
    (runOps rl ops).2 = true := by
  induction ops generalizing rl with
  | nil => rfl
  | cons op rest ih =>
    have hpres : (applyOp rl op).RequestTime = none := by rw [applyOp_RequestTime, h]
    have hok : opGranted rl op = true := by
      cases op with
      | claim now =>
        simp only [opGranted, decide_eq_true_eq]
        exact (ExceededAndClaim_noData rl now h).1
      | release => rfl
    simp [runOps, hok, ih _ hpres]

/-! ### Claim theorems -/

/-- C1: for every execution of `runRequestWithErrorHandler` in which the
transport returns first a 429 and then a 200 response, the claimed
counter of the tracker is the same after the operation as before it (no
quota leak), and the caller observes only the final 200 result - the 429
is fully absorbed by the retry loop and no 429-derived error is
returned. -/
theorem c1_retry429_no_leak_and_200_surfaced (eh : Response → Option String)
    (times : Nat → Now) (fuel : Nat) (rl : RateLimit) (r1 r2 : Response)
    (rl2 : RateLimit) (res : RunResult)
    (hv : ∀ k, validNow (times k))
    (h429 : r1.StatusCode = 429) (h200 : r2.StatusCode = 200)
    (hrun : runRequestWithErrorHandler eh true times fuel rl [r1, r2] = some (rl2, res)) :
    rl2.UsageClaimed = rl.UsageClaimed ∧ res = RunResult.ok r2.Body := by
  constructor
  · have h := runLoop_claimed eh true times hv fuel 0 rl 0 [r1, r2] rl2 res hrun
    simpa using h
  · exact runLoop_429_200_ok eh times fuel 0 rl 0 r1 r2 rl2 res h429 h200 hrun

/-- Witness for C1: the concrete 429-then-200 execution from the fresh
tracker state terminates with claimed counter 0 and the 200 body. -/
theorem c1_witness :
    resp429.StatusCode = 429 ∧ resp200.StatusCode = 200 ∧
    runRequestWithErrorHandler eh0 true times0 5 initRateLimit [resp429, resp200] =
      some (c1FinalState, RunResult.ok "B") ∧
    (c1FinalState.UsageClaimed = initRateLimit.UsageClaimed ∧
      RunResult.ok "B" = RunResult.ok resp200.Body) := by
  have hrun : runRequestWithErrorHandler eh0 true times0 5 initRateLimit [resp429, resp200] =
      some (c1FinalState, RunResult.ok "B") := by decide
  have hv : ∀ k, validNow (times0 k) := by
    intro k
    show validNow now0
    exact ⟨by decide, by decide, by decide⟩
  exact ⟨rfl, rfl, hrun,
    c1_retry429_no_leak_and_200_surfaced eh0 times0 5 initRateLimit resp429 resp200
      c1FinalState (RunResult.ok "B") hv rfl rfl hrun⟩

/-- C2: while no server data has been absorbed (`RequestTime` is the zero
value), every claim grants - `ExceededAndClaim` returns wait 0 and
increments the claimed counter, `Exceeded` returns false and increments
as well, regardless of the stored limits and usages, and every claim in
an arbitrary claim/release sequence is granted. -/
theorem c2_failOpen_without_server_data (rl : RateLimit) (now : Now) (ops : List Op)
    (h : rl.RequestTime = none) :
    (ExceededAndClaim rl now).2 = 0 ∧
    (ExceededAndClaim rl now).1.UsageClaimed = rl.UsageClaimed + 1 ∧
    (Exceeded rl now).2 = false ∧
    (Exceeded rl now).1.UsageClaimed = rl.UsageClaimed + 1 ∧
    (runOps rl ops).2 = true := by
  have hf := rollover_frame rl now
  have hr : (rollover rl now).RequestTime = none := by rw [hf.2.2.2, h]
  refine ⟨(ExceededAndClaim_noData rl now h).1, (ExceededAndClaim_noData rl now h).2.1,
    ?_, ?_, runOps_noData rl ops h⟩
  · simp [Exceeded, hr]
  · simp [Exceeded, hr, hf.2.2.1]

/-- Witness for C2: a state with tiny limits and huge usages but no server
data grants a claim/release/claim sequence throughout. -/
theorem c2_witness :
    rlNoData.RequestTime = none ∧
    ((ExceededAndClaim rlNoData now0).2 = 0 ∧
      (ExceededAndClaim rlNoData now0).1.UsageClaimed = rlNoData.UsageClaimed + 1 ∧
      (Exceeded rlNoData now0).2 = false ∧
      (Exceeded rlNoData now0).1.UsageClaimed = rlNoData.UsageClaimed + 1 ∧
      (runOps rlNoData ops2).2 = true) :=
  ⟨rfl, c2_failOpen_without_server_data rlNoData now0 ops2 rfl⟩

/-- C3 counterexample: releasing on the fresh state (claimed counter 0)
drives the counter to -1, not 0 - the source's `Unclaim` has no floor. -/
theorem c3_counterexample :
    (Unclaim initRateLimit).UsageClaimed = -1 ∧
    ¬(Unclaim initRateLimit).UsageClaimed = 0 := by
  decide

/-- C3 amended: `Unclaim` (and `Reserved`) decrement the claimed counter
unconditionally, with no floor at 0; releasing with the counter at 0
leaves it at -1, so the counter can go negative. -/
theorem c3_release_decrements_unfloored (rl : RateLimit) :
    (Unclaim rl).UsageClaimed = rl.UsageClaimed - 1 ∧
    (Reserved rl).UsageClaimed = rl.UsageClaimed - 1 :=
  ⟨rfl, rfl⟩

/-- C4: with server data present and no window rollover pending,
`ExceededAndClaim` checks the short window first - short exhaustion denies
with the short wait whatever the long window holds - and only then the
long window: short room plus long exhaustion denies with the long wait.
Denial leaves the state unchanged (no claim is taken). -/
theorem c4_short_window_checked_first (rl : RateLimit) (now : Now)
    (hv : validNow now)
    (hks : rl.WindowShort = currentWindowShort now)
    (hkl : rl.WindowLong = currentWindowLong now)
    (ht : rl.RequestTime.isSome = true) :
    (rl.UsageShort + rl.UsageClaimed ≥ rl.LimitShort →
      ExceededAndClaim rl now = (rl, waitShortGo now) ∧ waitShortGo now > 0) ∧
    (rl.UsageShort + rl.UsageClaimed < rl.LimitShort →
      rl.UsageLong + rl.UsageClaimed ≥ rl.LimitLong →
      ExceededAndClaim rl now = (rl, waitLongGo now) ∧ waitLongGo now > 0) := by
  have hid := rollover_id rl now hks hkl
  obtain ⟨t, ht2⟩ := Option.isSome_iff_exists.mp ht
  constructor
  · intro hshort
    refine ⟨?_, waitShortGo_pos now⟩
    show claimCheck (rollover rl now) now = (rl, waitShortGo now)
    rw [hid]
    simp only [claimCheck, ht2]
    rw [if_pos hshort]
  · intro hshort hlong
    refine ⟨?_, waitLongGo_pos now hv⟩
    show claimCheck (rollover rl now) now = (rl, waitLongGo now)
    rw [hid]
    simp only [claimCheck, ht2]
    rw [if_neg (not_le.mpr hshort), if_pos hlong]

/-- Witness for C4: the spec's two concrete scenarios - short window over
limit denies with the short wait, and long window over limit with short
room denies with the long wait. -/
theorem c4_witness :
    (ExceededAndClaim rlShortOver now0 = (rlShortOver, waitShortGo now0) ∧
      waitShortGo now0 > 0) ∧
    (ExceededAndClaim rlLongOver now0 = (rlLongOver, waitLongGo now0) ∧
      waitLongGo now0 > 0) := by
  have hv : validNow now0 := ⟨by decide, by decide, by decide⟩
  refine ⟨(c4_short_window_checked_first rlShortOver now0 hv (by decide) (by decide)
      (by decide)).1 (by decide),
    (c4_short_window_checked_first rlLongOver now0 hv (by decide) (by decide)
      (by decide)).2 (by decide) (by decide)⟩

/-- C5: for every valid wall-clock instant, the code's modular expression
for the short-window wait equals a 5-second margin plus the seconds
remaining until the next 15-minute boundary, and the long-window wait
equals the margin plus the seconds remaining until the next UTC
midnight. -/
theorem c5_wait_equals_margin_plus_remaining (now : Now) (hv : validNow now) :
    waitShortGo now = 5 + (secondsUntilNextShortBoundary now : Int) ∧
    waitLongGo now = 5 + (secondsUntilNextUtcMidnight now : Int) := by
  obtain ⟨h1, h2, h3⟩ := hv
  unfold waitShortGo waitLongGo secondsUntilNextShortBoundary secondsUntilNextUtcMidnight
    secondsOfDay windowShortSeconds windowShortMinutes
  constructor <;> omega

/-- Witness for C5: both wait formulas agree at 13:17:42 UTC. -/
theorem c5_witness :
    validNow now5 ∧
    (waitShortGo now5 = 5 + (secondsUntilNextShortBoundary now5 : Int) ∧
      waitLongGo now5 = 5 + (secondsUntilNextUtcMidnight now5 : Int)) :=
  ⟨⟨by decide, by decide, by decide⟩,
    c5_wait_equals_margin_plus_remaining now5 ⟨by decide, by decide, by decide⟩⟩

/-- C6: a rate-limit header whose value lacks the comma separator makes
`updateRateLimits` panic (index out of range on `s[1]`, modelled `none`)
instead of clearing the state, contradicting its own documentation
("ignoring error, instead will reset struct to initial values"); a
non-numeric header, by contrast, is handled as documented: the state is
cleared and the immediately following claim is granted. -/
theorem c6_comma_less_header_panics :
    updateRateLimits rlServer respNoComma 7 = none ∧
    updateRateLimits rlServer respNonNumeric 7 = some (clear rlServer) ∧
    (ExceededAndClaim (clear rlServer) now0).2 = 0 := by
  decide

/-- C7 counterexample: on the fresh all-zero state (both limits 0) the
claim predicts `FractionUsed = max(0, 0) = 0`, but `FractionReached`
computes `0/0` in float arithmetic and returns NaN, not 0. -/
theorem c7_counterexample :
    FractionReached initRateLimit = GoFloat.nan ∧
    GoFloat.nan ≠ GoFloat.finite (fractionUsedSpec initRateLimit) := by
  decide

/-- C7 amended: when both limits are nonzero, `FractionReached` returns
the maximum of the two usage/limit fractions - in particular 1/2 and 9/10
on the spec's two examples - but when a limit is 0 the corresponding
fraction is an IEEE special value, not 0: positive usage over a zero
limit gives +Inf, and the all-zero state gives NaN. -/
theorem c7_fraction_reached_behavior (rl : RateLimit)
    (hs : rl.LimitShort ≠ 0) (hl : rl.LimitLong ≠ 0) :
    FractionReached rl = GoFloat.finite (fractionUsedSpec rl) ∧
    FractionReached rlFracHalf = GoFloat.finite (1 / 2) ∧
    FractionReached rlFracNine = GoFloat.finite (9 / 10) ∧
    FractionReached rlFracZeroShort = GoFloat.posInf ∧
    FractionReached initRateLimit = GoFloat.nan := by
  refine ⟨?_, ?hHalf, ?hNine, by decide, by decide⟩
  case hHalf =>
    norm_num [FractionReached, intDivF, fgt, rlFracHalf]
  case hNine =>
    norm_num [FractionReached, intDivF, fgt, rlFracNine]
  have key : ∀ a b : ℚ,
      (if fgt (GoFloat.finite a) (GoFloat.finite b) then GoFloat.finite a
        else GoFloat.finite b) = GoFloat.finite (max a b) := by
    intro a b
    by_cases hab : a > b
    · simp [fgt, hab, max_eq_left (le_of_lt hab)]
    · simp [fgt, hab, max_eq_right (not_lt.mp hab)]
  have hdS : intDivF rl.UsageShort rl.LimitShort =
      GoFloat.finite ((rl.UsageShort : ℚ) / (rl.LimitShort : ℚ)) := by
    simp [intDivF, hs]
  have hdL : intDivF rl.UsageLong rl.LimitLong =
      GoFloat.finite ((rl.UsageLong : ℚ) / (rl.LimitLong : ℚ)) := by
    simp [intDivF, hl]
  have hspec : fractionUsedSpec rl =
      max ((rl.UsageShort : ℚ) / (rl.LimitShort : ℚ))
        ((rl.UsageLong : ℚ) / (rl.LimitLong : ℚ)) := by
    simp [fractionUsedSpec, hs, hl]
  simp only [FractionReached, hdS, hdL, hspec]
  exact key _ _

/-- Witness for C7: the amended statement applied at the first example
state, whose limits are both nonzero. -/
theorem c7_witness :
    rlFracHalf.LimitShort ≠ 0 ∧ rlFracHalf.LimitLong ≠ 0 ∧
    FractionReached rlFracHalf = GoFloat.finite (fractionUsedSpec rlFracHalf) :=
  ⟨by decide, by decide,
    (c7_fraction_reached_behavior rlFracHalf (by decide) (by decide)).1⟩

/-- C8: when a stored window key differs from the wall-clock-derived
current key, the rollover performed at the head of `ExceededAndClaim`
stores the current key and resets that window's usage to 0; the window's
limit, both fields of the other window (when its key matches), the
claimed counter and the server-data stamp are untouched; and the limit
comparisons of `ExceededAndClaim` are evaluated on the rolled-over
state. -/
theorem c8_rollover_before_comparison (rl : RateLimit) (now : Now) :
    (currentWindowShort now ≠ rl.WindowShort →
      (rollover rl now).WindowShort = currentWindowShort now ∧
        (rollover rl now).UsageShort = 0) ∧
    (currentWindowLong now ≠ rl.WindowLong →
      (rollover rl now).WindowLong = currentWindowLong now ∧
        (rollover rl now).UsageLong = 0) ∧
    (currentWindowShort now = rl.WindowShort →
      (rollover rl now).WindowShort = rl.WindowShort ∧
        (rollover rl now).UsageShort = rl.UsageShort) ∧
    (currentWindowLong now = rl.WindowLong →
      (rollover rl now).WindowLong = rl.WindowLong ∧
        (rollover rl now).UsageLong = rl.UsageLong) ∧
    (rollover rl now).LimitShort = rl.LimitShort ∧
    (rollover rl now).LimitLong = rl.LimitLong ∧
    (rollover rl now).UsageClaimed = rl.UsageClaimed ∧
    (rollover rl now).RequestTime = rl.RequestTime ∧
    ExceededAndClaim rl now = claimCheck (rollover rl now) now := by
  have hf := rollover_frame rl now
  refine ⟨?_, ?_, ?_, ?_, hf.1, hf.2.1, hf.2.2.1, hf.2.2.2, rfl⟩
  all_goals intro hcond
  all_goals unfold rollover rolloverLong rolloverShort
  all_goals split_ifs <;> simp_all

/-- Witness for C8: at a state whose two stored keys both differ from the
current instant's keys, the rollover stores both current keys and zeroes
both usages. -/
theorem c8_witness :
    currentWindowShort now0 ≠ rl8.WindowShort ∧
    currentWindowLong now0 ≠ rl8.WindowLong ∧
    ((rollover rl8 now0).WindowShort = currentWindowShort now0 ∧
      (rollover rl8 now0).UsageShort = 0) ∧
    ((rollover rl8 now0).WindowLong = currentWindowLong now0 ∧
      (rollover rl8 now0).UsageLong = 0) :=
  ⟨by decide, by decide,
    (c8_rollover_before_comparison rl8 now0).1 (by decide),
    (c8_rollover_before_comparison rl8 now0).2.1 (by decide)⟩

/-- C9 counterexample: claim takes only the shared read lock, so two
claimers are not mutually exclusive - under the alternating interleaving
both hold the lock at once (two readers inside), both observe the single
free short-window slot, both are granted, and the claimed counter ends at
2, past the limit (usage 9 + claimed 2 > limit 10): the tracker
over-admits. -/
theorem c9_counterexample :
    (runSched now0 [true, false] (initSys rl9)).readers = 2 ∧
    (runSched now0 alternatingSched (initSys rl9)).grantedA = true ∧
    (runSched now0 alternatingSched (initSys rl9)).grantedB = true ∧
    (runSched now0 alternatingSched (initSys rl9)).rl.UsageClaimed = 2 ∧
    (runSched now0 alternatingSched (initSys rl9)).rl.UsageShort +
        (runSched now0 alternatingSched (initSys rl9)).rl.UsageClaimed >
      (runSched now0 alternatingSched (initSys rl9)).rl.LimitShort := by
  decide

/-- C9 amended: `updateRateLimits` takes the exclusive write lock, but
claim and release take only the shared read lock, so mutating claim
operations are not mutually exclusive with each other: for every state
with exactly one free short-window slot (and long-window room), two
concurrent claimers can be inside the locked section simultaneously, both
observe room available, and both increment - the final claimed counter
exceeds the free capacity and the tracker over-admits. -/
theorem c9_read_lock_over_admits (rl : RateLimit) (now : Now)
    (hks : rl.WindowShort = currentWindowShort now)
    (hkl : rl.WindowLong = currentWindowLong now)
    (ht : rl.RequestTime.isSome = true)
    (hshort : rl.UsageShort + rl.UsageClaimed + 1 = rl.LimitShort)
    (hlong : rl.UsageLong + rl.UsageClaimed < rl.LimitLong) :
    (runSched now [true, false] (initSys rl)).readers = 2 ∧
    (runSched now [true, false] (initSys rl)).pcA = 1 ∧
    (runSched now [true, false] (initSys rl)).pcB = 1 ∧
    (runSched now alternatingSched (initSys rl)).grantedA = true ∧
    (runSched now alternatingSched (initSys rl)).grantedB = true ∧
    (runSched now alternatingSched (initSys rl)).rl.UsageClaimed = rl.UsageClaimed + 2 ∧
    (runSched now alternatingSched (initSys rl)).rl.UsageShort +
        (runSched now alternatingSched (initSys rl)).rl.UsageClaimed > rl.LimitShort := by
  have hid := rollover_id rl now hks hkl
  obtain ⟨t, ht2⟩ := Option.isSome_iff_exists.mp ht
  have h1 : ¬(rl.UsageShort + rl.UsageClaimed ≥ rl.LimitShort) := by omega
  have h2 : ¬(rl.UsageLong + rl.UsageClaimed ≥ rl.LimitLong) := by omega
  refine ⟨?_, ?_, ?_, ?_, ?_, ?_, ?_⟩ <;>
    simp [runSched, alternatingSched, sysStep, claimStep, initSys, hid, ht2, h1, h2] <;>
    omega

/-- Witness for C9: the amended statement at the concrete one-slot
state. -/
theorem c9_witness :
    (runSched now0 [true, false] (initSys rl9)).readers = 2 ∧
    (runSched now0 [true, false] (initSys rl9)).pcA = 1 ∧
    (runSched now0 [true, false] (initSys rl9)).pcB = 1 ∧
    (runSched now0 alternatingSched (initSys rl9)).grantedA = true ∧
    (runSched now0 alternatingSched (initSys rl9)).grantedB = true ∧
    (runSched now0 alternatingSched (initSys rl9)).rl.UsageClaimed = rl9.UsageClaimed + 2 ∧
    (runSched now0 alternatingSched (initSys rl9)).rl.UsageShort +
        (runSched now0 alternatingSched (initSys rl9)).rl.UsageClaimed > rl9.LimitShort :=
  c9_read_lock_over_admits rl9 now0 (by decide) (by decide) (by decide) (by decide)
    (by decide)

/-- C10: neither path of `updateRateLimits` modifies the in-flight claimed
counter, and the clearing path zeroes the window keys, limits, usages and
the server-data stamp while leaving the claimed counter unchanged, so
reservations held by in-flight attempts survive a state reset. -/
theorem c10_reconcile_preserves_claimed (rl : RateLimit) (resp : Response) (t : Nat)
    (rl2 : RateLimit) (h : updateRateLimits rl resp t = some rl2) :
    rl2.UsageClaimed = rl.UsageClaimed ∧
    (clear rl).UsageClaimed = rl.UsageClaimed ∧
    (clear rl).RequestTime = none ∧
    (clear rl).WindowShort = "" ∧
    (clear rl).WindowLong = "" ∧
    (clear rl).LimitShort = 0 ∧
    (clear rl).LimitLong = 0 ∧
    (clear rl).UsageShort = 0 ∧
    (clear rl).UsageLong = 0 :=
  ⟨updateRateLimits_claimed rl resp t rl2 h, rfl, rfl, rfl, rfl, rfl, rfl, rfl, rfl⟩

/-- Witness for C10: a successful reconcile on a state with two in-flight
claims leaves the claimed counter at 2. -/
theorem c10_witness :
    updateRateLimits rlServer resp200 7 = some rlServerUpd ∧
    (rlServerUpd.UsageClaimed = rlServer.UsageClaimed ∧
      (clear rlServer).UsageClaimed = rlServer.UsageClaimed ∧
      (clear rlServer).RequestTime = none ∧
      (clear rlServer).WindowShort = "" ∧
      (clear rlServer).WindowLong = "" ∧
      (clear rlServer).LimitShort = 0 ∧
      (clear rlServer).LimitLong = 0 ∧
      (clear rlServer).UsageShort = 0 ∧
      (clear rlServer).UsageLong = 0) := by
  have h : updateRateLimits rlServer resp200 7 = some rlServerUpd := by decide
  exact ⟨h, c10_reconcile_preserves_claimed rlServer resp200 7 rlServerUpd h⟩

end StravaGo
